import Mathlib

/-!
Verification of `python_scripts/admin_change_color.py`, a command-line
client that resolves a color and a webapp URL (from flags, a random draw,
or `secrets.json`), builds a query string with a random nonce and a fixed
device identifier, issues one GET request, and prints a summary line.

The script is embedded as a pure function `run : List String → Env → Trace`.
Randomness is made explicit: the environment carries the raw draws consumed
by the two `random.randint` calls, and `randint` maps a draw into the
requested inclusive range (so any value of the range is reachable and, for
a draw already in range, is returned unchanged — matching a uniform source).
The file system and the network are part of the environment: `secrets`
is the parsed content of `secrets.json` (`none` when the file is missing,
unreadable or malformed), and `httpGet` is the response-status oracle of
`requests.get`.  The trace records the files opened, the request targets
dispatched, the stdout lines and the exit class of the process.
-/

/-- `N_COLOR = 10` from the script. -/
def N_COLOR : Nat := 10

/-- `MAC = "02:01:20:22:ADMIN"` from the script. -/
def MAC : String := "02:01:20:22:ADMIN"

/-- A JSON value, as produced by `json.load`. -/
inductive Json where
  | null : Json
  | bool (b : Bool) : Json
  | num (n : Int) : Json
  | str (s : String) : Json
  | arr (elems : List Json) : Json
  | obj (kvs : List (String × Json)) : Json

/-- Rendering of a JSON value by Python string interpolation (`str`).
Only the scalar cases are ever reached by the script on a well-formed
`secrets.json` (whose `webapp_url` field is a string); container values are
rendered approximately. -/
def pyStr : Json → String
  | .null => "None"
  | .bool b => cond b "True" "False"
  | .num n => toString n
  | .str s => s
  | .arr elems =>
      "[" ++ String.intercalate ", " (elems.attach.map (fun e => pyStr e.1)) ++ "]"
  | .obj kvs =>
      "\x7b" ++
        String.intercalate ", "
          (kvs.attach.map (fun kv => kv.1.1 ++ ": " ++ pyStr kv.1.2)) ++ "\x7d"
termination_by j => sizeOf j
decreasing_by
  all_goals simp_wf
  all_goals first
    | (have h := List.sizeOf_lt_of_mem e.2
       omega)
    | (obtain ⟨⟨a, b⟩, hm⟩ := kv
       have h := List.sizeOf_lt_of_mem hm
       simp [Prod.mk.sizeOf_spec] at h ⊢
       omega)

/-- `dict[key]` lookup on a parsed JSON object. -/
def lookupKey (kvs : List (String × Json)) (k : String) : Option Json :=
  match kvs with
  | [] => none
  | (k0, v) :: rest => if k0 = k then some v else lookupKey rest k

/-- The two optional flags recognised by the argument parser. -/
structure Args where
  color : Option String := none
  url : Option String := none
deriving DecidableEq

/-- `[str(num) for num in range(N_COLOR)]`: the `choices` list of `--color`. -/
def colorChoices : List String := (List.range N_COLOR).map (fun num => toString num)

/-- The argparse loop: consumes `--color v` (validated against
`colorChoices`) and `--url v`; anything else is a usage error. -/
def parseArgsFrom : List String → Args → Except Unit Args
  | [], acc => .ok acc
  | "--color" :: v :: rest, acc =>
      if v ∈ colorChoices then parseArgsFrom rest { acc with color := some v }
      else .error ()
  | "--url" :: v :: rest, acc => parseArgsFrom rest { acc with url := some v }
  | _, _ => .error ()

/-- `parser.parse_args()` on the given argument vector. -/
def parseArgs (argv : List String) : Except Unit Args :=
  parseArgsFrom argv {}

/-- `random.randint a b`: the raw draw from the random source, mapped into
the inclusive range `[a, b]`. -/
def randint (a b draw : Nat) : Nat :=
  a + draw % (b - a + 1)

/-- Accumulator loop of decimal conversion: Python's `int` on a string of
digits. -/
def decDigitsToNat : List Char → Nat → Nat
  | [], acc => acc
  | c :: cs, acc => decDigitsToNat cs (acc * 10 + (c.toNat - 48))

/-- Python's `int(s)` for the unsigned decimal strings the `--color`
choices admit. -/
def pyInt (s : String) : Nat :=
  decDigitsToNat s.data 0

/-- Lines 17–20: `color = random.randint(0, N_COLOR - 1)` when the flag is
absent, else `int(args.color)`. -/
def resolveColor (argColor : Option String) (draw : Nat) : Nat :=
  match argColor with
  | none => randint 0 (N_COLOR - 1) draw
  | some s => pyInt s

/-- The errors the URL-resolution block can raise: a failed
`open`/`json.load`, or a failed `["webapp_url"]` lookup. -/
inductive PyErr where
  | fileOrParseErr : PyErr
  | lookupErr : PyErr
deriving DecidableEq

/-- Lines 23–29: `url = str(args.url)` when the flag is present, else the
`webapp_url` field of the parsed `secrets.json`. -/
def resolveUrl (argUrl : Option String) (secrets : Option Json) : Except PyErr String :=
  match argUrl with
  | some u => .ok u
  | none =>
      match secrets with
      | none => .error .fileOrParseErr
      | some (.obj kvs) =>
          match lookupKey kvs "webapp_url" with
          | some v => .ok (pyStr v)
          | none => .error .lookupErr
      | some _ => .error .lookupErr

/-- Line 33: `url_query = f"{url}?fc={color}.{rng}.{MAC}"`. -/
def mkUrlQuery (url : String) (color rng : Nat) : String :=
  url ++ "?fc=" ++ toString color ++ "." ++ toString rng ++ "." ++ MAC

/-- Line 37: the summary printed after the request. -/
def summaryLine (color : Nat) (url_query : String) : String :=
  "Admin changed color to " ++ toString color ++ " using request " ++ url_query

/-- How the process exits: normally, with an argparse usage error, or by an
uncaught Python exception. -/
inductive ExitStatus where
  | normalExit : ExitStatus
  | usageExit : ExitStatus
  | uncaughtExit : ExitStatus
deriving DecidableEq

/-- The observable behaviour of one invocation. -/
structure Trace where
  fileReads : List String
  requests : List String
  stdoutLines : List String
  exit : ExitStatus
deriving DecidableEq

/-- The ambient world of one invocation: the parsed content of
`secrets.json` (`none` when missing, unreadable or malformed), the raw
draws consumed by the two `random.randint` calls, and the HTTP
response-status oracle. -/
structure Env where
  secrets : Option Json
  colorDraw : Nat
  nonceDraw : Nat
  httpGet : String → Nat

/-- The files the URL-resolution block opens: `secrets.json` exactly when
the `--url` flag is absent. -/
def readsOf (argUrl : Option String) : List String :=
  match argUrl with
  | none => ["secrets.json"]
  | some _ => []

/-- The whole script, top to bottom: parse arguments, resolve the color,
resolve the URL (reading `secrets.json` only when `--url` is absent), draw
the nonce, dispatch the GET request, print the summary. -/
def run (argv : List String) (env : Env) : Trace :=
  match parseArgs argv with
  | .error _ =>
      { fileReads := [], requests := [], stdoutLines := [], exit := .usageExit }
  | .ok args =>
      let color := resolveColor args.color env.colorDraw
      let reads : List String := readsOf args.url
      match resolveUrl args.url env.secrets with
      | .error _ =>
          { fileReads := reads, requests := [], stdoutLines := [],
            exit := .uncaughtExit }
      | .ok url =>
          let rng := randint 1000 9999 env.nonceDraw
          let url_query := mkUrlQuery url color rng
          let _req := env.httpGet url_query
          { fileReads := reads, requests := [url_query],
            stdoutLines := [summaryLine color url_query],
            exit := .normalExit }

/-! ## Basic lemmas about the embedding -/

/-- Python string interpolation is the identity on strings. -/
theorem pyStr_str (s : String) : pyStr (.str s) = s := by
  simp [pyStr]

/-- `random.randint a b` always lands in the inclusive range `[a, b]`. -/
theorem randint_bounds (a b draw : Nat) (h : a ≤ b) :
    a ≤ randint a b draw ∧ randint a b draw ≤ b := by
  have hm := Nat.mod_lt draw (show 0 < b - a + 1 by omega)
  unfold randint
  omega

/-- A draw already inside the range is returned unchanged. -/
theorem randint_id (a b draw : Nat) (h1 : a ≤ draw) (h2 : draw ≤ b) :
    randint a b (draw - a) = draw := by
  unfold randint
  have : draw - a < b - a + 1 := by omega
  rw [Nat.mod_eq_of_lt this]
  omega

/-- The trace of a run whose arguments fail to parse. -/
theorem run_parse_error (argv : List String) (env : Env)
    (hp : parseArgs argv = .error ()) :
    run argv env =
      { fileReads := [], requests := [], stdoutLines := [], exit := .usageExit } := by
  unfold run
  rw [hp]

/-- The trace of a run whose URL resolution raises. -/
theorem run_resolve_error (argv : List String) (env : Env) (args : Args) (e : PyErr)
    (hp : parseArgs argv = .ok args)
    (hu : resolveUrl args.url env.secrets = .error e) :
    run argv env =
      { fileReads := readsOf args.url, requests := [], stdoutLines := [],
        exit := .uncaughtExit } := by
  unfold run
  rw [hp]
  simp only [hu]

/-- The trace of a successful run, in terms of the resolved color and URL
and the drawn nonce. -/
theorem run_success (argv : List String) (env : Env) (args : Args) (u : String)
    (hp : parseArgs argv = .ok args)
    (hu : resolveUrl args.url env.secrets = .ok u) :
    run argv env =
      { fileReads := readsOf args.url,
        requests :=
          [mkUrlQuery u (resolveColor args.color env.colorDraw)
            (randint 1000 9999 env.nonceDraw)],
        stdoutLines :=
          [summaryLine (resolveColor args.color env.colorDraw)
            (mkUrlQuery u (resolveColor args.color env.colorDraw)
              (randint 1000 9999 env.nonceDraw))],
        exit := .normalExit } := by
  unfold run
  rw [hp]
  simp only [hu]

/-! ## Claims -/

/-- **C1**: for every resolved base URL `u`, resolved color `c` and nonce
`n`, the dispatched request target is exactly
`u ++ "?fc=" ++ c ++ "." ++ n ++ "." ++ "02:01:20:22:ADMIN"`; in
particular, with `--url https://example.com/x` and `--color 3` the target
is `https://example.com/x?fc=3.<n>.02:01:20:22:ADMIN` for the drawn nonce. -/
theorem request_target_exact_format
    (argv : List String) (env : Env) (args : Args) (u : String)
    (hp : parseArgs argv = .ok args)
    (hu : resolveUrl args.url env.secrets = .ok u) :
    (run argv env).requests =
      [u ++ "?fc=" ++ toString (resolveColor args.color env.colorDraw) ++ "." ++
        toString (randint 1000 9999 env.nonceDraw) ++ "." ++ "02:01:20:22:ADMIN"] ∧
    (run ["--url", "https://example.com/x", "--color", "3"] env).requests =
      ["https://example.com/x?fc=3." ++ toString (randint 1000 9999 env.nonceDraw) ++
        ".02:01:20:22:ADMIN"] := by
  constructor
  · rw [run_success argv env args u hp hu]
    rfl
  · rw [run_success ["--url", "https://example.com/x", "--color", "3"] env
      { color := some "3", url := some "https://example.com/x" }
      "https://example.com/x" rfl rfl]
    have hc : resolveColor (some "3") env.colorDraw = 3 := rfl
    have h3 : toString (3 : Nat) = "3" := rfl
    rw [hc]
    simp [mkUrlQuery, MAC, h3, String.ext_iff, String.data_append, List.append_assoc]

/-- Witness for C1 at `--url https://example.com/x --color 3` in an
environment with draws 0 and response status 200. -/
theorem request_target_exact_format_witness :
    parseArgs ["--url", "https://example.com/x", "--color", "3"] =
      .ok { color := some "3", url := some "https://example.com/x" } ∧
    resolveUrl (some "https://example.com/x") none = .ok "https://example.com/x" ∧
    ((run ["--url", "https://example.com/x", "--color", "3"]
        { secrets := none, colorDraw := 0, nonceDraw := 0, httpGet := fun _ => 200 }).requests =
      ["https://example.com/x" ++ "?fc=" ++ toString (resolveColor (some "3") 0) ++ "." ++
        toString (randint 1000 9999 0) ++ "." ++ "02:01:20:22:ADMIN"] ∧
    (run ["--url", "https://example.com/x", "--color", "3"]
        { secrets := none, colorDraw := 0, nonceDraw := 0, httpGet := fun _ => 200 }).requests =
      ["https://example.com/x?fc=3." ++ toString (randint 1000 9999 0) ++
        ".02:01:20:22:ADMIN"]) :=
  ⟨rfl, rfl,
    request_target_exact_format ["--url", "https://example.com/x", "--color", "3"]
      { secrets := none, colorDraw := 0, nonceDraw := 0, httpGet := fun _ => 200 }
      { color := some "3", url := some "https://example.com/x" }
      "https://example.com/x" (by rfl) (by rfl)⟩

/-- **C2**: every `--color` string the parser accepts is of the form
`toString n` for some `n < 10`, and the resolved color is that `n`
regardless of the random draw. -/
theorem accepted_color_resolves_to_supplied_integer (n d : Nat) (h : n < N_COLOR) :
    toString n ∈ colorChoices ∧ resolveColor (some (toString n)) d = n := by
  constructor
  · exact List.mem_map.mpr ⟨n, List.mem_range.mpr h, rfl⟩
  · norm_num [N_COLOR] at h
    interval_cases n <;> rfl

/-- Witness for C2 at `n = 3`. -/
theorem accepted_color_resolves_to_supplied_integer_witness :
    3 < N_COLOR ∧
    (toString 3 ∈ colorChoices ∧ resolveColor (some (toString 3)) 5 = 3) :=
  ⟨by decide, accepted_color_resolves_to_supplied_integer 3 5 (by decide)⟩

/-- **C3**: every dispatched request carries a nonce in the inclusive range
`[1000, 9999]`, and that nonce is the fresh draw `randint 1000 9999` from
the random source, whatever the argument vector was. -/
theorem nonce_in_range_and_always_fresh (argv : List String) (env : Env) (q : String)
    (hq : q ∈ (run argv env).requests) :
    1000 ≤ randint 1000 9999 env.nonceDraw ∧
    randint 1000 9999 env.nonceDraw ≤ 9999 ∧
    ∃ u c, q = mkUrlQuery u c (randint 1000 9999 env.nonceDraw) := by
  obtain ⟨h1, h2⟩ := randint_bounds 1000 9999 env.nonceDraw (by omega)
  refine ⟨h1, h2, ?_⟩
  rcases hpe : parseArgs argv with e | args
  · rw [run_parse_error argv env (by rw [hpe])] at hq
    simp at hq
  · rcases hue : resolveUrl args.url env.secrets with e | u
    · rw [run_resolve_error argv env args e hpe hue] at hq
      simp at hq
    · rw [run_success argv env args u hpe hue] at hq
      simp only [List.mem_singleton] at hq
      exact ⟨u, resolveColor args.color env.colorDraw, hq⟩

/-- Witness for C3 at `--url https://e` with nonce draw 0. -/
theorem nonce_in_range_and_always_fresh_witness :
    "https://e?fc=0.1000.02:01:20:22:ADMIN" ∈
      (run ["--url", "https://e"]
        { secrets := none, colorDraw := 0, nonceDraw := 0, httpGet := fun _ => 200 }).requests ∧
    (1000 ≤ randint 1000 9999 0 ∧ randint 1000 9999 0 ≤ 9999 ∧
      ∃ u c, "https://e?fc=0.1000.02:01:20:22:ADMIN" = mkUrlQuery u c (randint 1000 9999 0)) :=
  ⟨by decide,
    nonce_in_range_and_always_fresh ["--url", "https://e"]
      { secrets := none, colorDraw := 0, nonceDraw := 0, httpGet := fun _ => 200 }
      "https://e?fc=0.1000.02:01:20:22:ADMIN" (by decide)⟩

/-- **C4**: with `--color` omitted the resolved color is the raw
`randint 0 9` draw, it always lies in `[0, 9]`, and every value of
`{0, ..., 9}` is reachable because an in-range draw passes through
unchanged. -/
theorem omitted_color_is_uniform_draw (d : Nat) :
    resolveColor none d = randint 0 (N_COLOR - 1) d ∧
    resolveColor none d < N_COLOR ∧
    (∀ c, c < N_COLOR → resolveColor none c = c) := by
  refine ⟨rfl, ?_, ?_⟩
  · simp only [resolveColor, randint, N_COLOR]
    omega
  · intro c hc
    simp only [resolveColor, randint, N_COLOR] at *
    omega

/-- Witness for C4 at draw 7. -/
theorem omitted_color_is_uniform_draw_witness :
    resolveColor none 7 = randint 0 (N_COLOR - 1) 7 ∧
    resolveColor none 7 < N_COLOR ∧
    resolveColor none 7 = 7 :=
  ⟨(omitted_color_is_uniform_draw 7).1, (omitted_color_is_uniform_draw 7).2.1,
    (omitted_color_is_uniform_draw 7).2.2 7 (by decide)⟩

/-- **C5**: a `--color` value outside the accepted choices makes the run
exit with a usage error: no file is read, no request is dispatched and
nothing is printed. -/
theorem invalid_color_is_usage_error (s : String) (rest : List String) (env : Env)
    (hs : s ∉ colorChoices) :
    run ("--color" :: s :: rest) env =
      { fileReads := [], requests := [], stdoutLines := [], exit := .usageExit } := by
  apply run_parse_error
  unfold parseArgs parseArgsFrom
  simp [hs]

/-- Witness for C5 at `--color 10`. -/
theorem invalid_color_is_usage_error_witness :
    "10" ∉ colorChoices ∧
    run ["--color", "10"]
        { secrets := none, colorDraw := 0, nonceDraw := 0, httpGet := fun _ => 200 } =
      { fileReads := [], requests := [], stdoutLines := [], exit := .usageExit } :=
  ⟨by decide,
    invalid_color_is_usage_error "10" []
      { secrets := none, colorDraw := 0, nonceDraw := 0, httpGet := fun _ => 200 }
      (by decide)⟩

/-- **C6**: with `--url` omitted and a `secrets.json` that parses to an
object whose `webapp_url` field is the string `u`, the resolved base URL is
exactly `u` and the dispatched request is built on it. -/
theorem omitted_url_resolves_from_secrets
    (argv : List String) (env : Env) (args : Args)
    (kvs : List (String × Json)) (u : String)
    (hp : parseArgs argv = .ok args) (hu : args.url = none)
    (hs : env.secrets = some (.obj kvs))
    (hk : lookupKey kvs "webapp_url" = some (.str u)) :
    resolveUrl args.url env.secrets = .ok u ∧
    (run argv env).requests =
      [mkUrlQuery u (resolveColor args.color env.colorDraw)
        (randint 1000 9999 env.nonceDraw)] := by
  have hres : resolveUrl args.url env.secrets = .ok u := by
    rw [hu, hs]
    simp [resolveUrl, hk, pyStr_str]
  refine ⟨hres, ?_⟩
  rw [run_success argv env args u hp hres]

/-- Witness for C6 with `secrets.json` = `\x7b"webapp_url": "https://foo"\x7d`. -/
theorem omitted_url_resolves_from_secrets_witness :
    parseArgs [] = .ok { color := none, url := none } ∧
    (Env.mk (some (.obj [("webapp_url", .str "https://foo")])) 0 0
        (fun _ => 200)).secrets = some (.obj [("webapp_url", .str "https://foo")]) ∧
    lookupKey [("webapp_url", .str "https://foo")] "webapp_url" =
      some (.str "https://foo") ∧
    (resolveUrl (Args.mk none none).url
        (Env.mk (some (.obj [("webapp_url", .str "https://foo")])) 0 0
          (fun _ => 200)).secrets = .ok "https://foo" ∧
      (run [] (Env.mk (some (.obj [("webapp_url", .str "https://foo")])) 0 0
          (fun _ => 200))).requests =
        [mkUrlQuery "https://foo" (resolveColor none 0) (randint 1000 9999 0)]) :=
  ⟨rfl, rfl, rfl,
    omitted_url_resolves_from_secrets []
      (Env.mk (some (.obj [("webapp_url", .str "https://foo")])) 0 0 (fun _ => 200))
      (Args.mk none none) [("webapp_url", .str "https://foo")] "https://foo"
      (by rfl) (by rfl) (by rfl) (by rfl)⟩

/-- **C7**: with `--url` omitted, a missing/unreadable/malformed
`secrets.json` or one without the `webapp_url` key terminates the run with
an uncaught error: no request is dispatched and nothing is printed. -/
theorem omitted_url_bad_secrets_uncaught
    (argv : List String) (env : Env) (args : Args)
    (hp : parseArgs argv = .ok args) (hu : args.url = none)
    (hbad : env.secrets = none ∨
      ∃ kvs, env.secrets = some (.obj kvs) ∧ lookupKey kvs "webapp_url" = none) :
    run argv env =
      { fileReads := ["secrets.json"], requests := [], stdoutLines := [],
        exit := .uncaughtExit } := by
  have hres : ∃ e, resolveUrl args.url env.secrets = .error e := by
    rw [hu]
    rcases hbad with h | ⟨kvs, h1, h2⟩
    · rw [h]
      exact ⟨.fileOrParseErr, rfl⟩
    · rw [h1]
      simp [resolveUrl, h2]
  obtain ⟨e, he⟩ := hres
  rw [run_resolve_error argv env args e hp he, hu]
  rfl

/-- Witness for C7 with a missing `secrets.json`. -/
theorem omitted_url_bad_secrets_uncaught_witness :
    parseArgs [] = .ok { color := none, url := none } ∧
    (Env.mk none 0 0 (fun _ => 200)).secrets = none ∧
    run [] (Env.mk none 0 0 (fun _ => 200)) =
      { fileReads := ["secrets.json"], requests := [], stdoutLines := [],
        exit := .uncaughtExit } :=
  ⟨rfl, rfl,
    omitted_url_bad_secrets_uncaught [] (Env.mk none 0 0 (fun _ => 200))
      (Args.mk none none) (by rfl) (by rfl) (Or.inl rfl)⟩

/-- **C8**: with `--url` supplied, the resolved base URL is the supplied
string verbatim, `secrets.json` is never opened, and two runs with the same
arguments and draws but different `secrets.json` contents dispatch the
identical request. -/
theorem supplied_url_taken_verbatim_secrets_unread
    (argv : List String) (args : Args) (u : String) (env1 env2 : Env)
    (hp : parseArgs argv = .ok args) (hu : args.url = some u)
    (hc : env1.colorDraw = env2.colorDraw) (hn : env1.nonceDraw = env2.nonceDraw) :
    resolveUrl args.url env1.secrets = .ok u ∧
    (run argv env1).fileReads = [] ∧
    (run argv env1).requests = (run argv env2).requests := by
  have h1 : resolveUrl args.url env1.secrets = .ok u := by rw [hu]; rfl
  have h2 : resolveUrl args.url env2.secrets = .ok u := by rw [hu]; rfl
  refine ⟨h1, ?_, ?_⟩
  · rw [run_success argv env1 args u hp h1, hu]
    rfl
  · rw [run_success argv env1 args u hp h1, run_success argv env2 args u hp h2,
      hc, hn]

/-- Witness for C8: same draws, one environment with a `secrets.json` and
one without. -/
theorem supplied_url_taken_verbatim_secrets_unread_witness :
    parseArgs ["--url", "https://e"] = .ok { color := none, url := some "https://e" } ∧
    (Args.mk none (some "https://e")).url = some "https://e" ∧
    (Env.mk (some (.obj [("webapp_url", .str "https://other")])) 4 7
        (fun _ => 200)).colorDraw = (Env.mk none 4 7 (fun _ => 500)).colorDraw ∧
    (Env.mk (some (.obj [("webapp_url", .str "https://other")])) 4 7
        (fun _ => 200)).nonceDraw = (Env.mk none 4 7 (fun _ => 500)).nonceDraw ∧
    (resolveUrl (Args.mk none (some "https://e")).url
        (Env.mk (some (.obj [("webapp_url", .str "https://other")])) 4 7
          (fun _ => 200)).secrets = .ok "https://e" ∧
      (run ["--url", "https://e"]
        (Env.mk (some (.obj [("webapp_url", .str "https://other")])) 4 7
          (fun _ => 200))).fileReads = [] ∧
      (run ["--url", "https://e"]
        (Env.mk (some (.obj [("webapp_url", .str "https://other")])) 4 7
          (fun _ => 200))).requests =
      (run ["--url", "https://e"] (Env.mk none 4 7 (fun _ => 500))).requests) :=
  ⟨rfl, rfl, rfl, rfl,
    supplied_url_taken_verbatim_secrets_unread ["--url", "https://e"]
      (Args.mk none (some "https://e")) "https://e"
      (Env.mk (some (.obj [("webapp_url", .str "https://other")])) 4 7 (fun _ => 200))
      (Env.mk none 4 7 (fun _ => 500)) (by rfl) (by rfl) (by rfl) (by rfl)⟩

/-- **C9**: a run that completes normally printed exactly one stdout line,
namely the summary with the chosen color and the full request URL, and the
whole trace is independent of the HTTP response oracle. -/
theorem one_summary_line_response_ignored
    (argv : List String) (env : Env) (g : String → Nat)
    (h : (run argv env).exit = .normalExit) :
    (∃ args q, parseArgs argv = .ok args ∧
      (run argv env).requests = [q] ∧
      (run argv env).stdoutLines =
        ["Admin changed color to " ++
          toString (resolveColor args.color env.colorDraw) ++
          " using request " ++ q]) ∧
    run argv { env with httpGet := g } = run argv env := by
  rcases hpe : parseArgs argv with e | args
  · rw [run_parse_error argv env (by rw [hpe])] at h
    simp at h
  · rcases hue : resolveUrl args.url env.secrets with e | u
    · rw [run_resolve_error argv env args e hpe hue] at h
      simp at h
    · have hue2 : resolveUrl args.url ({ env with httpGet := g }).secrets = .ok u := hue
      constructor
      · refine ⟨args,
          mkUrlQuery u (resolveColor args.color env.colorDraw)
            (randint 1000 9999 env.nonceDraw), rfl, ?_, ?_⟩
        · rw [run_success argv env args u hpe hue]
        · rw [run_success argv env args u hpe hue]
          rfl
      · rw [run_success argv { env with httpGet := g } args u hpe hue2,
          run_success argv env args u hpe hue]

/-- Witness for C9 at `--url https://e --color 3`. -/
theorem one_summary_line_response_ignored_witness :
    (run ["--url", "https://e", "--color", "3"]
        (Env.mk none 0 0 (fun _ => 200))).exit = .normalExit ∧
    ((∃ args q, parseArgs ["--url", "https://e", "--color", "3"] = .ok args ∧
      (run ["--url", "https://e", "--color", "3"]
          (Env.mk none 0 0 (fun _ => 200))).requests = [q] ∧
      (run ["--url", "https://e", "--color", "3"]
          (Env.mk none 0 0 (fun _ => 200))).stdoutLines =
        ["Admin changed color to " ++ toString (resolveColor args.color 0) ++
          " using request " ++ q]) ∧
    run ["--url", "https://e", "--color", "3"]
        { Env.mk none 0 0 (fun _ => 200) with httpGet := fun _ => 404 } =
      run ["--url", "https://e", "--color", "3"] (Env.mk none 0 0 (fun _ => 200))) :=
  ⟨by decide,
    one_summary_line_response_ignored ["--url", "https://e", "--color", "3"]
      (Env.mk none 0 0 (fun _ => 200)) (fun _ => 404) (by decide)⟩

/-- **C10**: the `--color` choices list is exactly the ten single-digit
strings, and alternative spellings of an in-range integer such as `"03"`,
`"+3"` or `" 3"` are rejected as usage errors before any file read or
request. -/
theorem color_choices_are_exactly_single_digits
    (env : Env) (s : String) (rest : List String)
    (hs : s = "03" ∨ s = "+3" ∨ s = " 3") :
    colorChoices = ["0", "1", "2", "3", "4", "5", "6", "7", "8", "9"] ∧
    run ("--color" :: s :: rest) env =
      { fileReads := [], requests := [], stdoutLines := [], exit := .usageExit } := by
  have hnot : s ∉ colorChoices := by
    rcases hs with rfl | rfl | rfl <;> decide
  refine ⟨by decide, ?_⟩
  apply run_parse_error
  unfold parseArgs parseArgsFrom
  simp [hnot]

/-- Witness for C10 at `--color 03`. -/
theorem color_choices_are_exactly_single_digits_witness :
    ("03" = "03" ∨ "03" = "+3" ∨ "03" = " 3") ∧
    (colorChoices = ["0", "1", "2", "3", "4", "5", "6", "7", "8", "9"] ∧
    run ["--color", "03"] (Env.mk none 0 0 (fun _ => 200)) =
      { fileReads := [], requests := [], stdoutLines := [], exit := .usageExit }) :=
  ⟨Or.inl rfl,
    color_choices_are_exactly_single_digits (Env.mk none 0 0 (fun _ => 200))
      "03" [] (Or.inl rfl)⟩
